import Mathlib

/-!
Verification development for the Watchlight aggregation & anomaly detection
pipeline.  The definitions below are shallow embeddings of the TypeScript
services:

* `services/anomaly-detector.ts` — statistical anomaly detection
  (`calculateMean`, `calculateStdDev`, `calculateZScore`,
  `detectErrorRateAnomaly`, `detectLatencyAnomaly`, `detectVolumeAnomaly`,
  `detectAnomalies`);
* the auto-anomaly-detector entry point — cooldown cache
  (`getAnomalyKey`, `wasAnalyzedRecently`, `markAsAnalyzed`) and the
  detection cycle `runAnomalyDetection`;
* `services/ai-analyzer.ts` — provider fallback (`analyzeAnomaly`);
* `services/notify.ts` — `sendNotification`;
* the cron-aggregator entry point — `aggregateData`, `runAggregation`;
* `services/redis.ts` of the detector — `getRecentSummaries`.

JavaScript numbers are modelled as real numbers (`ℝ`); `Math.sqrt` is
`Real.sqrt`.  Timestamps (`Date.now()` milliseconds) are modelled as
rationals so cooldown arithmetic stays exact.  Asynchronous calls that can
throw are modelled as `Except String` values supplied as inputs; a thrown
exception that reaches a `catch` block is modelled by the value the
surrounding code produces in that branch.
-/

/-- Severity levels of an anomaly: 'low' | 'medium' | 'high' | 'critical'. -/
inductive Severity where
  | low
  | medium
  | high
  | critical
deriving DecidableEq, Repr

/-- The string literal the TypeScript code uses for each severity. -/
def Severity.str : Severity → String
  | .low => "low"
  | .medium => "medium"
  | .high => "high"
  | .critical => "critical"

/-- Numeric rank of a severity (low = 0 … critical = 3), used to state
"severity at least medium". -/
def Severity.rank : Severity → Nat
  | .low => 0
  | .medium => 1
  | .high => 2
  | .critical => 3

/-- One entry of a summary's `metrics` array (the fields the detector reads:
`totalRequests`, `totalErrors`, `p95Latency`). -/
structure MetricEntry where
  totalRequests : ℝ
  totalErrors : ℝ
  p95Latency : ℝ

/-- A summary snapshot as consumed by the anomaly detector: `timestamp`
(epoch milliseconds of the ISO string — `Date` parsing is monotone, so a
natural number preserves the ordering), the `metrics` array and
`requestVolume.total`. -/
structure Summary where
  timestamp : Nat
  metrics : List MetricEntry
  requestVolumeTotal : ℝ

noncomputable section

/-- `calculateMean`: sum all values, divide by count; 0 on an empty list. -/
def calculateMean (values : List ℝ) : ℝ :=
  if values.length = 0 then 0
  else (values.foldl (· + ·) 0) / values.length

/-- `calculateStdDev`: square root of the mean squared deviation
(population standard deviation); 0 on an empty list. -/
def calculateStdDev (values : List ℝ) (mean : ℝ) : ℝ :=
  if values.length = 0 then 0
  else Real.sqrt (calculateMean (values.map fun v => (v - mean) ^ 2))

/-- `calculateZScore`: `(value - mean) / stdDev`, 0 when `stdDev` is 0. -/
def calculateZScore (value mean stdDev : ℝ) : ℝ :=
  if stdDev = 0 then 0 else (value - mean) / stdDev

/-- Left-pad a digit string with zeros up to `len` characters. -/
def padLeftZeros (s : String) (len : Nat) : String :=
  String.mk (List.replicate (len - s.length) '0') ++ s

/-- `Number.prototype.toFixed(digits)` on the ideal real value, for the
nonnegative rates, means and deviations the detector formats (round half
up to `digits` decimal places). -/
def jsToFixed (digits : Nat) (x : ℝ) : String :=
  let scale : ℤ := 10 ^ digits
  let n : ℤ := ⌊x * (scale : ℝ) + 1 / 2⌋
  if digits = 0 then toString n
  else toString (n / scale) ++ "." ++ padLeftZeros (toString (n % scale).natAbs) digits

/-- An `AnomalyResult` as returned by the detector; `expectedRange` is
flattened into its `min`/`max` fields. -/
structure AnomalyResult where
  isAnomaly : Bool
  metric : String
  currentValue : ℝ
  expectedRangeMin : ℝ
  expectedRangeMax : ℝ
  zScore : ℝ
  severity : Severity
  message : String

/-- The severity ladder of `detectErrorRateAnomaly`: starts at 'low', then
the three threshold branches. -/
def errorRateSeverity (currentErrorRate zScore : ℝ) : Severity :=
  if currentErrorRate > 20 ∨ |zScore| > 3 then .critical
  else if currentErrorRate > 10 ∨ |zScore| > 2.5 then .high
  else if currentErrorRate > 5 ∨ |zScore| > 2 then .medium
  else .low

/-- Error rates contributed by one historical summary: for each metrics
entry with `totalRequests > 0`, `(totalErrors / totalRequests) * 100`. -/
def summaryErrorRates (s : Summary) : List ℝ :=
  s.metrics.filterMap fun m =>
    if m.totalRequests > 0 then some (m.totalErrors / m.totalRequests * 100) else none

/-- All error rates extracted from the historical summaries, in `forEach`
order.  (The source's `summary.metrics && summary.metrics.length > 0` guard
is subsumed: an empty `metrics` array contributes nothing.) -/
def histErrorRates (hist : List Summary) : List ℝ :=
  hist.flatMap summaryErrorRates

/-- The current aggregate error rate: total errors over total requests
across all services, as a percentage; 0 without metrics or requests. -/
def currentAggregateErrorRate (cur : Summary) : ℝ :=
  if cur.metrics.length > 0 then
    let totalErrors := cur.metrics.foldl (fun sum m => sum + m.totalErrors) 0
    let totalRequests := cur.metrics.foldl (fun sum m => sum + m.totalRequests) 0
    if totalRequests > 0 then totalErrors / totalRequests * 100 else 0
  else 0

/-- `detectErrorRateAnomaly` from `services/anomaly-detector.ts`. -/
def detectErrorRateAnomaly (historicalSummaries : List Summary) (currentSummary : Summary) :
    Option AnomalyResult :=
  if historicalSummaries.length < 3 then none
  else
    let errorRates := histErrorRates historicalSummaries
    if errorRates.length = 0 then none
    else
      let mean := calculateMean errorRates
      let stdDev := calculateStdDev errorRates mean
      let currentErrorRate := currentAggregateErrorRate currentSummary
      let zScore := calculateZScore currentErrorRate mean stdDev
      if |zScore| > 2 ∨ currentErrorRate > 5 then
        some
          { isAnomaly := true
            metric := "error_rate"
            currentValue := currentErrorRate
            expectedRangeMin := max 0 (mean - 2 * stdDev)
            expectedRangeMax := mean + 2 * stdDev
            zScore := zScore
            severity := errorRateSeverity currentErrorRate zScore
            message := "Error rate anomaly detected: " ++ jsToFixed 2 currentErrorRate ++
              "% (expected: " ++ jsToFixed 2 mean ++ "% ± " ++ jsToFixed 2 stdDev ++ "%)" }
      else none

/-- The severity ladder of `detectLatencyAnomaly`. -/
def latencySeverity (currentLatency zScore : ℝ) : Severity :=
  if currentLatency > 2000 ∨ |zScore| > 3 then .critical
  else if currentLatency > 1500 ∨ |zScore| > 2.5 then .high
  else if currentLatency > 1000 ∨ |zScore| > 2 then .medium
  else .low

/-- P95 latencies contributed by one historical summary: entries whose
`p95Latency` is truthy and positive. -/
def summaryLatencies (s : Summary) : List ℝ :=
  s.metrics.filterMap fun m =>
    if m.p95Latency ≠ 0 ∧ m.p95Latency > 0 then some m.p95Latency else none

/-- All historical P95 latencies, in `forEach` order. -/
def histLatencies (hist : List Summary) : List ℝ :=
  hist.flatMap summaryLatencies

/-- Current latency: mean of the positive per-service P95 latencies of the
current summary; 0 when there are none. -/
def currentMeanLatency (cur : Summary) : ℝ :=
  if cur.metrics.length > 0 then
    let latencies := (cur.metrics.map fun m => m.p95Latency).filter fun l => l > 0
    if latencies.length > 0 then calculateMean latencies else 0
  else 0

/-- `detectLatencyAnomaly` from `services/anomaly-detector.ts`. -/
def detectLatencyAnomaly (historicalSummaries : List Summary) (currentSummary : Summary) :
    Option AnomalyResult :=
  if historicalSummaries.length < 3 then none
  else
    let latencies := histLatencies historicalSummaries
    if latencies.length = 0 then none
    else
      let mean := calculateMean latencies
      let stdDev := calculateStdDev latencies mean
      let currentLatency := currentMeanLatency currentSummary
      let zScore := calculateZScore currentLatency mean stdDev
      if |zScore| > 2 ∨ currentLatency > 1000 then
        some
          { isAnomaly := true
            metric := "latency"
            currentValue := currentLatency
            expectedRangeMin := max 0 (mean - 2 * stdDev)
            expectedRangeMax := mean + 2 * stdDev
            zScore := zScore
            severity := latencySeverity currentLatency zScore
            message := "Latency anomaly detected: " ++ jsToFixed 2 currentLatency ++
              "ms (expected: " ++ jsToFixed 2 mean ++ "ms ± " ++ jsToFixed 2 stdDev ++ "ms)" }
      else none

/-- The severity ladder of `detectVolumeAnomaly` (z-score only). -/
def volumeSeverity (zScore : ℝ) : Severity :=
  if |zScore| > 3.5 then .critical
  else if |zScore| > 3 then .high
  else if |zScore| > 2.5 then .medium
  else .low

/-- Request volumes of the historical summaries: `requestVolume.total` of
each summary where that value is truthy (nonzero). -/
def histVolumes (hist : List Summary) : List ℝ :=
  hist.filterMap fun s =>
    if s.requestVolumeTotal ≠ 0 then some s.requestVolumeTotal else none

/-- `detectVolumeAnomaly` from `services/anomaly-detector.ts`.
(`currentSummary.requestVolume?.total || 0` is the identity on the modelled
total, since a falsy total is already 0.) -/
def detectVolumeAnomaly (historicalSummaries : List Summary) (currentSummary : Summary) :
    Option AnomalyResult :=
  if historicalSummaries.length < 3 then none
  else
    let volumes := histVolumes historicalSummaries
    if volumes.length = 0 then none
    else
      let mean := calculateMean volumes
      let stdDev := calculateStdDev volumes mean
      let currentVolume := currentSummary.requestVolumeTotal
      let zScore := calculateZScore currentVolume mean stdDev
      if |zScore| > 2.5 then
        some
          { isAnomaly := true
            metric := "request_volume"
            currentValue := currentVolume
            expectedRangeMin := max 0 (mean - 2 * stdDev)
            expectedRangeMax := mean + 2 * stdDev
            zScore := zScore
            severity := volumeSeverity zScore
            message := "Request volume " ++ (if zScore > 0 then "spike" else "drop") ++
              " detected: " ++ jsToFixed 0 currentVolume ++ " requests (expected: " ++
              jsToFixed 0 mean ++ " ± " ++ jsToFixed 0 stdDev ++ ")" }
      else none

/-- `detectAnomalies`: checks error rate, then latency, then request volume,
returning the first detected anomaly. -/
def detectAnomalies (historicalSummaries : List Summary) (currentSummary : Summary) :
    Option AnomalyResult :=
  match detectErrorRateAnomaly historicalSummaries currentSummary with
  | some errorAnomaly => some errorAnomaly
  | none =>
    match detectLatencyAnomaly historicalSummaries currentSummary with
    | some latencyAnomaly => some latencyAnomaly
    | none =>
      match detectVolumeAnomaly historicalSummaries currentSummary with
      | some volumeAnomaly => some volumeAnomaly
      | none => none

end

/-! ### Cooldown cache (auto-anomaly-detector entry point) -/

/-- `getAnomalyKey`: the duplicate-tracking key `metric:severity`. -/
def getAnomalyKey (metric severity : String) : String :=
  metric ++ ":" ++ severity

/-- The `recentAnomalies` map, modelled as an association list from keys to
the `Date.now()` timestamp (milliseconds, exact rationals) when the anomaly
was last analyzed. -/
def lookupTs (cache : List (String × ℚ)) (key : String) : Option ℚ :=
  (cache.find? fun kv => kv.1 = key).map (·.2)

/-- `Map.set`: replace the value of an existing key in place, otherwise
append a new entry (insertion order preserved, as for a JS `Map`). -/
def mapSet (cache : List (String × ℚ)) (key : String) (v : ℚ) : List (String × ℚ) :=
  if cache.any (fun kv => kv.1 = key) then
    cache.map fun kv => if kv.1 = key then (key, v) else kv
  else cache ++ [(key, v)]

/-- `wasAnalyzedRecently`: false when the key is absent or its stored
timestamp is falsy — the source's `if (!lastAnalyzed) return false` guard
treats a timestamp of 0 as never analyzed; otherwise true when
`(now - lastAnalyzed) / (1000 * 60)` minutes is below the cooldown. -/
def wasAnalyzedRecently (cooldownMinutes : ℚ) (cache : List (String × ℚ))
    (anomalyKey : String) (now : ℚ) : Bool :=
  match lookupTs cache anomalyKey with
  | none => false
  | some lastAnalyzed =>
    if lastAnalyzed = 0 then false
    else (now - lastAnalyzed) / (1000 * 60) < cooldownMinutes

/-- `markAsAnalyzed`: store `now` under the key, then clean up every entry
strictly older than the cooldown window. -/
def markAsAnalyzed (cooldownMinutes : ℚ) (cache : List (String × ℚ))
    (anomalyKey : String) (now : ℚ) : List (String × ℚ) :=
  let cooldownMs := cooldownMinutes * 60 * 1000
  (mapSet cache anomalyKey now).filter fun kv => ¬ now - kv.2 > cooldownMs

/-! ### AI analyzer (`services/ai-analyzer.ts`)

API keys are the environment strings (`''` when unconfigured, which is
falsy); the outcome of each HTTP call is an input of type
`Except String String` (the analysis text on success). -/

/-- The result of `analyzeAnomaly`. -/
structure AIAnalysis where
  provider : String
  analysis : String
  timestamp : ℚ

/-- `analyzeWithGroq`: throws when `GROQ_API_KEY` is unconfigured, otherwise
returns the API call's outcome (an API error is logged and re-thrown). -/
def analyzeWithGroq (groqKey : String) (groqApi : Except String String) :
    Except String String :=
  if groqKey = "" then .error "GROQ_API_KEY not configured" else groqApi

/-- `analyzeWithOpenAI`: throws when `OPENAI_API_KEY` is unconfigured,
otherwise returns the API call's outcome. -/
def analyzeWithOpenAI (openaiKey : String) (openaiApi : Except String String) :
    Except String String :=
  if openaiKey = "" then .error "OPENAI_API_KEY not configured" else openaiApi

/-- The code that follows the Groq block in `analyzeAnomaly`: try OpenAI if
configured (both providers failing throws), otherwise throw the
no-keys-configured error. -/
def openaiFallback (openaiKey : String) (openaiApi : Except String String) (now : ℚ) :
    Except String AIAnalysis :=
  if openaiKey ≠ "" then
    match analyzeWithOpenAI openaiKey openaiApi with
    | .ok analysis => .ok ⟨"openai", analysis, now⟩
    | .error e => .error ("Both AI providers failed: " ++ e)
  else .error "No AI API keys configured (GROQ_API_KEY or OPENAI_API_KEY required)"

/-- `analyzeAnomaly`: try Groq first when configured; on its failure fall
through to the OpenAI fallback path. -/
def analyzeAnomaly (groqKey openaiKey : String)
    (groqApi openaiApi : Except String String) (now : ℚ) : Except String AIAnalysis :=
  if groqKey ≠ "" then
    match analyzeWithGroq groqKey groqApi with
    | .ok analysis => .ok ⟨"groq", analysis, now⟩
    | .error _ => openaiFallback openaiKey openaiApi now
  else openaiFallback openaiKey openaiApi now

/-! ### Notification sender (`services/notify.ts`) -/

/-- `sendNotification`: with no `NOTIFY_QUEUE_URL` it warns and returns;
otherwise it forwards the SQS `sendMessage` outcome — a failure is logged
and then re-thrown (`throw error`). -/
def sendNotification (notifyQueueUrl : String) (sqsSend : Except String Unit) :
    Except String Unit :=
  if notifyQueueUrl = "" then .ok ()
  else
    match sqsSend with
    | .ok _ => .ok ()
    | .error e => .error e

/-! ### The detection cycle (`runAnomalyDetection`)

The cycle's external effects are modelled as inputs: the summaries loaded
from Redis, the outcomes of the PostgreSQL context queries, the provider
API outcomes, the database save outcome and the SQS send outcome.  The
cycle body runs inside one big `try`/`catch`; an uncaught exception lands
in that catch block, which only logs — modelled by returning the state
accumulated so far. -/

/-- The `analysisData` record (spec: AnalysisRecord) saved to Redis and to
the database after a successful AI analysis. -/
structure AnalysisData where
  provider : String
  analysis : String
  severity : Severity
  metric : String
  message : String
  timestamp : ℚ

/-- All inputs of one detection cycle. -/
structure CycleEnv where
  summaries : List Summary
  now : ℚ
  cache : List (String × ℚ)
  logsFetch : Except String Unit
  tracesFetch : Except String Unit
  groqKey : String
  openaiKey : String
  groqApi : Except String String
  openaiApi : Except String String
  redisStoreOk : Bool
  dbSave : Except String Unit
  notifyQueueUrl : String
  sqsSend : Except String Unit

/-- The observable outcome of one detection cycle: the record stored in the
fast store (if any), the record persisted to the database (if any), the
cooldown cache afterwards, and whether the notification send returned
normally. -/
structure CycleOutcome where
  redisRecord : Option AnalysisData
  dbRecord : Option AnalysisData
  cache : List (String × ℚ)
  notifyOk : Bool

/-- The outcome of a cycle that ends without dispatching: every early
`return` and the top-level `catch` leave the cooldown cache untouched and
store nothing. -/
def idleOutcome (cache : List (String × ℚ)) : CycleOutcome :=
  ⟨none, none, cache, false⟩

/-- `runAnomalyDetection` (the cooldown-aware detection cycle of the
auto-anomaly-detector entry point).  `cooldownMinutes` is
`ANOMALY_COOLDOWN_MINUTES`. -/
noncomputable def runAnomalyDetection (cooldownMinutes : ℚ) (env : CycleEnv) : CycleOutcome :=
  if env.summaries.length < 3 then idleOutcome env.cache
  else
    match env.summaries.getLast? with
    | none => idleOutcome env.cache
    | some currentSummary =>
      let previousSummaries := env.summaries.dropLast
      match detectAnomalies previousSummaries currentSummary with
      | none => idleOutcome env.cache
      | some anomaly =>
        let anomalyKey := getAnomalyKey anomaly.metric anomaly.severity.str
        if wasAnalyzedRecently cooldownMinutes env.cache anomalyKey env.now then
          idleOutcome env.cache
        else
          match env.logsFetch with
          | .error _ => idleOutcome env.cache
          | .ok _ =>
            match env.tracesFetch with
            | .error _ => idleOutcome env.cache
            | .ok _ =>
              match analyzeAnomaly env.groqKey env.openaiKey env.groqApi env.openaiApi env.now with
              | .error _ => idleOutcome env.cache
              | .ok aiAnalysis =>
                let analysisData : AnalysisData :=
                  ⟨aiAnalysis.provider, aiAnalysis.analysis, anomaly.severity,
                    anomaly.metric, anomaly.message, env.now⟩
                let redisRecord := if env.redisStoreOk then some analysisData else none
                let dbRecord := match env.dbSave with
                  | .ok _ => some analysisData
                  | .error _ => none
                let newCache := markAsAnalyzed cooldownMinutes env.cache anomalyKey env.now
                match sendNotification env.notifyQueueUrl env.sqsSend with
                | .ok _ => ⟨redisRecord, dbRecord, newCache, true⟩
                | .error _ => ⟨redisRecord, dbRecord, newCache, false⟩

/-! ### Cron aggregator (`aggregateData` / `runAggregation`)

Database rows arrive with SQL string/null fields already put through
`parseInt(x || 0)` / `parseFloat(x || 0)`, so counts are integers and
aggregates are reals; a missing or empty `service`/`operation` is an
`Option String` resolved by `jsOrUnknown` (the `row.service || 'unknown'`
idiom, under which the empty string is also falsy). -/

/-- `x || 'unknown'` on a nullable string field. -/
def jsOrUnknown : Option String → String
  | none => "unknown"
  | some s => if s = "" then "unknown" else s

/-- A row of `getLogsData`: per (service, level) counts. -/
structure LogRow where
  service : Option String
  level : String
  count : ℤ

/-- A row of `getMetricsData`: per-service aggregates. -/
structure MetricsRow where
  service : Option String
  total_requests : ℤ
  total_errors : ℤ
  avg_response_time : ℝ
  p95_latency : ℝ
  p99_latency : ℝ
  avg_cpu : ℝ
  avg_memory : ℝ
  max_connections : ℤ
  total_throughput : ℤ

/-- A row of `getTracesData().traces`: per (service, operation) aggregates. -/
structure TraceRow where
  service : Option String
  operation : Option String
  trace_count : ℤ
  avg_duration : ℝ
  p95_duration : ℝ
  p99_duration : ℝ
  error_count : ℤ
  server_error_count : ℤ

/-- A row of `getTracesData().slowEndpoints`. -/
structure SlowEndpointRow where
  service : Option String
  operation : Option String
  p95_duration : ℝ
  count : ℤ

/-- The two projections returned by `getTracesData`. -/
structure TracesData where
  traces : List TraceRow
  slowEndpoints : List SlowEndpointRow

/-- The `logs` part of an aggregated summary; the `byService` and `byLevel`
records are association lists in insertion order (JS object string keys).
`byService` values are (total, errors) pairs. -/
structure LogsSummary where
  totalCount : ℤ
  errorCount : ℤ
  byService : List (String × ℤ × ℤ)
  byLevel : List (String × ℤ)

/-- One entry of the summary's `metrics` array. -/
structure MetricSummaryEntry where
  service : String
  totalRequests : ℤ
  totalErrors : ℤ
  avgResponseTime : ℝ
  p95Latency : ℝ
  p99Latency : ℝ
  avgCpu : ℝ
  avgMemory : ℝ
  maxConnections : ℤ
  totalThroughput : ℤ

/-- One entry of the summary's `traces` array. -/
structure TraceSummaryEntry where
  service : String
  operation : String
  traceCount : ℤ
  avgDuration : ℝ
  p95Duration : ℝ
  p99Duration : ℝ
  errorCount : ℤ
  serverErrorCount : ℤ

/-- One entry of the summary's `slowEndpoints` array. -/
structure SlowEndpointEntry where
  service : String
  operation : String
  p95Duration : ℝ
  count : ℤ

/-- One entry of the summary's `anomalousSpikes` array. -/
structure SpikeEntry where
  type : String
  service : String
  value : ℝ
  threshold : ℝ
  timestamp : ℚ

/-- The summary's `requestVolume` object. -/
structure RequestVolume where
  total : ℤ
  byService : List (String × ℤ)

/-- The `AggregatedSummary` produced by the cron aggregator. -/
structure AggregatedSummary where
  timestamp : ℚ
  windowMinutes : ℤ
  logs : LogsSummary
  metrics : List MetricSummaryEntry
  traces : List TraceSummaryEntry
  slowEndpoints : List SlowEndpointEntry
  errorCounts : List (String × ℤ)
  requestVolume : RequestVolume
  anomalousSpikes : List SpikeEntry

/-- `byService[service] = {total += count, errors += error ? count : 0}`
with on-demand initialisation. -/
def bumpServiceCounts (acc : List (String × ℤ × ℤ)) (service : String)
    (isError : Bool) (count : ℤ) : List (String × ℤ × ℤ) :=
  if acc.any (fun kv => kv.1 = service) then
    acc.map fun kv =>
      if kv.1 = service then
        (service, kv.2.1 + count, kv.2.2 + if isError then count else 0)
      else kv
  else acc ++ [(service, count, if isError then count else 0)]

/-- `rec[key] = (rec[key] || 0) + count` on a string-keyed record. -/
def bumpCount (acc : List (String × ℤ)) (key : String) (count : ℤ) :
    List (String × ℤ) :=
  if acc.any (fun kv => kv.1 = key) then
    acc.map fun kv => if kv.1 = key then (key, kv.2 + count) else kv
  else acc ++ [(key, count)]

/-- `rec[key] = v` on a string-keyed record (overwrite, not add). -/
def setCount (acc : List (String × ℤ)) (key : String) (v : ℤ) :
    List (String × ℤ) :=
  if acc.any (fun kv => kv.1 = key) then
    acc.map fun kv => if kv.1 = key then (key, v) else kv
  else acc ++ [(key, v)]

/-- The `logsSummary` block of `aggregateData`. -/
def logsSummaryOf (logsData : List LogRow) : LogsSummary :=
  { totalCount := logsData.foldl (fun sum row => sum + row.count) 0
    errorCount := logsData.foldl
      (fun sum row => sum + if row.level = "error" then row.count else 0) 0
    byService := logsData.foldl
      (fun acc row =>
        bumpServiceCounts acc (jsOrUnknown row.service) (row.level = "error") row.count) []
    byLevel := logsData.foldl (fun acc row => bumpCount acc row.level row.count) [] }

/-- The `metricsSummary` mapping of `aggregateData`. -/
def metricsSummaryOf (metricsData : List MetricsRow) : List MetricSummaryEntry :=
  metricsData.map fun row =>
    { service := jsOrUnknown row.service
      totalRequests := row.total_requests
      totalErrors := row.total_errors
      avgResponseTime := row.avg_response_time
      p95Latency := row.p95_latency
      p99Latency := row.p99_latency
      avgCpu := row.avg_cpu
      avgMemory := row.avg_memory
      maxConnections := row.max_connections
      totalThroughput := row.total_throughput }

/-- The `tracesSummary` mapping of `aggregateData`. -/
def tracesSummaryOf (tracesData : TracesData) : List TraceSummaryEntry :=
  tracesData.traces.map fun row =>
    { service := jsOrUnknown row.service
      operation := jsOrUnknown row.operation
      traceCount := row.trace_count
      avgDuration := row.avg_duration
      p95Duration := row.p95_duration
      p99Duration := row.p99_duration
      errorCount := row.error_count
      serverErrorCount := row.server_error_count }

/-- The `slowEndpoints` mapping of `aggregateData`. -/
def slowEndpointsOf (tracesData : TracesData) : List SlowEndpointEntry :=
  tracesData.slowEndpoints.map fun row =>
    { service := jsOrUnknown row.service
      operation := jsOrUnknown row.operation
      p95Duration := row.p95_duration
      count := row.count }

/-- The per-service `errorCounts` block of `aggregateData`. -/
def errorCountsOf (logsData : List LogRow) : List (String × ℤ) :=
  logsData.foldl
    (fun acc row =>
      if row.level = "error" then bumpCount acc (jsOrUnknown row.service) row.count
      else acc) []

/-- The `requestVolume` block of `aggregateData`. -/
def requestVolumeOf (metricsSummary : List MetricSummaryEntry) : RequestVolume :=
  { total := metricsSummary.foldl (fun sum m => sum + m.totalRequests) 0
    byService := metricsSummary.foldl (fun acc m => setCount acc m.service m.totalRequests) [] }

/-- The four `anomalousSpikes` passes of `aggregateData`, concatenated in
source order (error rate > 5%, P95 > 1000 ms, CPU > 80%, memory > 85%). -/
noncomputable def anomalousSpikesOf (metricsSummary : List MetricSummaryEntry)
    (timestamp : ℚ) : List SpikeEntry :=
  (metricsSummary.filterMap fun m =>
    let errorRate : ℝ :=
      if m.totalRequests > 0 then (m.totalErrors : ℝ) / (m.totalRequests : ℝ) * 100 else 0
    if errorRate > 5 then some ⟨"high_error_rate", m.service, errorRate, 5, timestamp⟩
    else none) ++
  (metricsSummary.filterMap fun m =>
    if m.p95Latency > 1000 then some ⟨"high_latency", m.service, m.p95Latency, 1000, timestamp⟩
    else none) ++
  (metricsSummary.filterMap fun m =>
    if m.avgCpu > 80 then some ⟨"high_cpu", m.service, m.avgCpu, 80, timestamp⟩
    else none) ++
  (metricsSummary.filterMap fun m =>
    if m.avgMemory > 85 then some ⟨"high_memory", m.service, m.avgMemory, 85, timestamp⟩
    else none)

/-- `aggregateData`: the three windowed queries are awaited in sequence
(logs, metrics, traces); any rejection propagates out of the function, so
it is an `Except`.  On success the full summary is assembled. -/
noncomputable def aggregateData (windowMinutes : ℤ) (timestamp : ℚ)
    (logsQuery : Except String (List LogRow))
    (metricsQuery : Except String (List MetricsRow))
    (tracesQuery : Except String TracesData) : Except String AggregatedSummary :=
  match logsQuery with
  | .error e => .error e
  | .ok logsData =>
    match metricsQuery with
    | .error e => .error e
    | .ok metricsData =>
      match tracesQuery with
      | .error e => .error e
      | .ok tracesData =>
        let metricsSummary := metricsSummaryOf metricsData
        .ok
          { timestamp := timestamp
            windowMinutes := windowMinutes
            logs := logsSummaryOf logsData
            metrics := metricsSummary
            traces := tracesSummaryOf tracesData
            slowEndpoints := slowEndpointsOf tracesData
            errorCounts := errorCountsOf logsData
            requestVolume := requestVolumeOf metricsSummary
            anomalousSpikes := anomalousSpikesOf metricsSummary timestamp }

/-- `storeAggregatedSummaries` writes the summary to the snapshot store
(timestamped key plus the `aggregated:latest` sentinel); a store failure
propagates into `runAggregation`'s catch, leaving the modelled store
unchanged — `storeOk` is the write's outcome. -/
def storeAggregatedSummariesModel (storeOk : Bool) (summary : AggregatedSummary)
    (store : List AggregatedSummary) : List AggregatedSummary :=
  if storeOk then summary :: store else store

/-- `runAggregation`: aggregate, then store; a thrown error is caught and
logged, leaving the snapshot store untouched. -/
noncomputable def runAggregation (windowMinutes : ℤ) (timestamp : ℚ)
    (logsQuery : Except String (List LogRow))
    (metricsQuery : Except String (List MetricsRow))
    (tracesQuery : Except String TracesData)
    (storeOk : Bool) (store : List AggregatedSummary) : List AggregatedSummary :=
  match aggregateData windowMinutes timestamp logsQuery metricsQuery tracesQuery with
  | .error _ => store
  | .ok summary => storeAggregatedSummariesModel storeOk summary store

/-! ### Snapshot store reads (`getRecentSummaries` in the detector's
`services/redis.ts`)

The Redis state is an input: the outcome of the `SCAN` loop, whether the
client exposes a `keys()` fallback and its outcome, and the key-value view
`kv` where `kv k = none` models an absent key (or a read that threw and was
skipped), `kv k = some none` a value that fails `JSON.parse`, and
`kv k = some (some s)` a parsed summary. -/

/-- First-occurrence deduplication by `timestamp`, as done by the
`filter`/`findIndex` idiom in `getRecentSummaries`. -/
def dedupByTimestamp : List Nat → List Summary → List Summary
  | _, [] => []
  | seen, s :: rest =>
    if s.timestamp ∈ seen then dedupByTimestamp seen rest
    else s :: dedupByTimestamp (s.timestamp :: seen) rest

/-- `arr.slice(-count)` on a JS array: the last `count` elements — except
that `-0 === 0`, so `count = 0` returns the whole array. -/
def jsSliceNeg (l : List α) (count : Nat) : List α :=
  if count = 0 then l else l.drop (l.length - count)

/-- `getRecentSummaries(count)`: enumerate `aggregated:*` keys (SCAN, then
a `keys()` fallback, else no keys), sort them descending and take `count`;
read `aggregated:latest` first, then the timestamped keys, skipping
unreadable or unparsable values; deduplicate by timestamp, sort
chronologically (stable comparator on timestamps — the ties it would
have to break are removed by the deduplication) and keep the last
`count`. -/
noncomputable def getRecentSummaries (scanOutcome : Except String (List String))
    (keysAvailable : Bool) (keysOutcome : Except String (List String))
    (kv : String → Option (Option Summary)) (count : Nat) : List Summary :=
  let allKeys : List String :=
    match scanOutcome with
    | .ok keys => keys
    | .error _ =>
      if keysAvailable then
        match keysOutcome with
        | .ok keys => keys
        | .error _ => []
      else []
  let timestampKeys :=
    ((List.insertionSort (· ≤ ·)
        (allKeys.filter fun k => k ≠ "aggregated:latest" ∧ k.startsWith "aggregated:")).reverse).take
      count
  let latestList : List Summary :=
    match kv "aggregated:latest" with
    | some (some latestData) => [latestData]
    | _ => []
  let summaries := latestList ++ timestampKeys.filterMap fun k => (kv k).bind id
  jsSliceNeg
    (List.insertionSort (fun a b => a.timestamp ≤ b.timestamp)
      (dedupByTimestamp [] summaries))
    count

/-! ### Shared lemmas -/

/-- `Except` value is an `error`. -/
def exceptIsError : Except ε α → Bool
  | .error _ => true
  | .ok _ => false

/-- Each individual detector returns nothing on fewer than 3 historical
summaries, hence so does `detectAnomalies`. -/
lemma detectAnomalies_of_short_history (hist : List Summary) (cur : Summary)
    (h : hist.length < 3) : detectAnomalies hist cur = none := by
  simp [detectAnomalies, detectErrorRateAnomaly, detectLatencyAnomaly,
    detectVolumeAnomaly, h]

/-- Inversion for a returned error-rate anomaly: its metric literal, the
relation between its severity and its own value/z-score, and the trigger
condition. -/
lemma detectErrorRateAnomaly_inv (hist : List Summary) (cur : Summary)
    (a : AnomalyResult) (h : detectErrorRateAnomaly hist cur = some a) :
    a.metric = "error_rate" ∧
    a.severity = errorRateSeverity a.currentValue a.zScore ∧
    (|a.zScore| > 2 ∨ a.currentValue > 5) := by
  simp only [detectErrorRateAnomaly] at h
  split at h
  · exact absurd h (by simp)
  · split at h
    · exact absurd h (by simp)
    · split at h
      · next htrig =>
        obtain rfl : _ = a := Option.some.inj h
        exact ⟨rfl, rfl, htrig⟩
      · exact absurd h (by simp)

/-- The severity ladder of the error-rate detector, under its trigger
condition: never 'low', and the three threshold branches in order. -/
lemma errorRateSeverity_spec (rate z : ℝ) (htrig : |z| > 2 ∨ rate > 5) :
    errorRateSeverity rate z ≠ Severity.low ∧
    ((rate > 20 ∨ |z| > 3) → errorRateSeverity rate z = Severity.critical) ∧
    (¬(rate > 20 ∨ |z| > 3) → (rate > 10 ∨ |z| > 2.5) →
      errorRateSeverity rate z = Severity.high) ∧
    (¬(rate > 20 ∨ |z| > 3) → ¬(rate > 10 ∨ |z| > 2.5) →
      errorRateSeverity rate z = Severity.medium) := by
  unfold errorRateSeverity
  split_ifs with h1 h2 h3
  · exact ⟨by simp, fun _ => rfl, fun hn => absurd h1 hn, fun hn _ => absurd h1 hn⟩
  · exact ⟨by simp, fun hc => absurd hc h1, fun _ _ => rfl, fun _ hn => absurd h2 hn⟩
  · exact ⟨by simp, fun hc => absurd hc h1, fun _ hc => absurd hc h2, fun _ _ => rfl⟩
  · exact absurd (htrig.elim Or.inr Or.inl) h3

/-- C2.  For every current snapshot, however extreme, `detect` returns no
anomaly when the history holds fewer than 3 snapshots. -/
theorem detect_insufficient_history (hist : List Summary) (cur : Summary)
    (h : hist.length < 3) : detectAnomalies hist cur = none :=
  detectAnomalies_of_short_history hist cur h

/-- C3.  `detect` evaluates error rate, then latency, then volume, and
returns only the first triggering metric's anomaly: whenever all three
detectors trigger, the result is the error-rate anomaly. -/
theorem detect_priority_error_rate_first (hist : List Summary) (cur : Summary)
    (he : (detectErrorRateAnomaly hist cur).isSome = true)
    (hl : (detectLatencyAnomaly hist cur).isSome = true)
    (hv : (detectVolumeAnomaly hist cur).isSome = true) :
    detectAnomalies hist cur = detectErrorRateAnomaly hist cur ∧
    Option.map (fun a => a.metric) (detectAnomalies hist cur) = some "error_rate" := by
  obtain ⟨ea, hea⟩ := Option.isSome_iff_exists.mp he
  refine ⟨by simp [detectAnomalies, hea], ?_⟩
  simp [detectAnomalies, hea, (detectErrorRateAnomaly_inv hist cur ea hea).1]

/-- C7.  Every returned error-rate anomaly has severity strictly above
'low': critical when `current > 20 ∨ |z| > 3`, high when
`current > 10 ∨ |z| > 2.5` otherwise, and medium in every remaining
triggering case. -/
theorem error_rate_severity_ladder (hist : List Summary) (cur : Summary)
    (a : AnomalyResult) (h : detectErrorRateAnomaly hist cur = some a) :
    a.severity ≠ Severity.low ∧
    ((a.currentValue > 20 ∨ |a.zScore| > 3) → a.severity = Severity.critical) ∧
    (¬(a.currentValue > 20 ∨ |a.zScore| > 3) → (a.currentValue > 10 ∨ |a.zScore| > 2.5) →
      a.severity = Severity.high) ∧
    (¬(a.currentValue > 20 ∨ |a.zScore| > 3) → ¬(a.currentValue > 10 ∨ |a.zScore| > 2.5) →
      a.severity = Severity.medium) := by
  obtain ⟨-, hs, htrig⟩ := detectErrorRateAnomaly_inv hist cur a h
  rw [hs]
  exact errorRateSeverity_spec a.currentValue a.zScore htrig

/-- C6 (counterexample).  With a configured queue URL, a failing enqueue is
re-thrown by `sendNotification`, contradicting "never propagated to its
caller". -/
theorem send_notification_failure_example :
    sendNotification "https://sqs.example.com/notify-queue" (.error "enqueue failed")
      = .error "enqueue failed" := by
  simp [sendNotification]

/-- C6 (amended).  `sendNotification` skips silently when the queue URL is
unconfigured and otherwise returns the enqueue outcome verbatim: a send
failure is logged and then re-thrown to the dispatching cycle, whose own
top-level catch absorbs it. -/
theorem send_notification_propagates_failure (url : String) (sqsSend : Except String Unit) :
    sendNotification url sqsSend = if url = "" then .ok () else sqsSend := by
  unfold sendNotification
  split
  · rfl
  · cases sqsSend with
    | ok u => cases u; rfl
    | error e => rfl

/-- C8.  If any of the three windowed queries fails, the aggregation cycle
aborts and the snapshot store is left exactly as it was. -/
theorem aggregation_query_failure_aborts_cycle (w : ℤ) (ts : ℚ)
    (logsQuery : Except String (List LogRow)) (metricsQuery : Except String (List MetricsRow))
    (tracesQuery : Except String TracesData) (storeOk : Bool)
    (store : List AggregatedSummary)
    (h : exceptIsError logsQuery = true ∨ exceptIsError metricsQuery = true ∨
      exceptIsError tracesQuery = true) :
    runAggregation w ts logsQuery metricsQuery tracesQuery storeOk store = store := by
  rcases h with h | h | h
  · cases logsQuery with
    | error e => simp [runAggregation, aggregateData]
    | ok v => simp [exceptIsError] at h
  · cases metricsQuery with
    | error e => cases logsQuery <;> simp [runAggregation, aggregateData]
    | ok v => simp [exceptIsError] at h
  · cases tracesQuery with
    | error e => cases logsQuery <;> cases metricsQuery <;> simp [runAggregation, aggregateData]
    | ok v => simp [exceptIsError] at h

/-- C8 (witness).  A concrete cycle whose logs query fails leaves a
concrete store untouched. -/
theorem aggregation_query_failure_aborts_cycle_witness :
    exceptIsError (.error "connection refused" : Except String (List LogRow)) = true ∧
    runAggregation 5 0 (.error "connection refused") (.ok []) (.ok ⟨[], []⟩) true [] = [] :=
  ⟨rfl, aggregation_query_failure_aborts_cycle 5 0 (.error "connection refused")
    (.ok []) (.ok ⟨[], []⟩) true [] (Or.inl rfl)⟩

/-! ### Concrete inputs for the end-to-end examples -/

/-- A historical snapshot with one service at a 2% error rate
(100 requests, 2 errors), P95 latency 100 ms, volume 100. -/
noncomputable def h2 : Summary := ⟨0, [⟨100, 2, 100⟩], 100⟩

/-- A current snapshot with an 8% aggregate error rate. -/
noncomputable def cur8 : Summary := ⟨0, [⟨100, 8, 100⟩], 100⟩

/-- The anomaly the detector produces for the spec's end-to-end example
(history of 2% error rates, current 8%). -/
noncomputable def c4res : AnomalyResult :=
  { isAnomaly := true
    metric := "error_rate"
    currentValue := 8
    expectedRangeMin := 2
    expectedRangeMax := 2
    zScore := 0
    severity := .medium
    message := "Error rate anomaly detected: 8.00% (expected: 2.00% ± 0.00%)" }

lemma jsToFixed_two_eight : jsToFixed 2 8 = "8.00" := by
  have h : (⌊(8 : ℝ) * (((10 : ℤ) ^ 2 : ℤ) : ℝ) + 1 / 2⌋ : ℤ) = 800 := by
    rw [Int.floor_eq_iff]
    norm_num
  simp only [jsToFixed, h]
  rfl

lemma jsToFixed_two_two : jsToFixed 2 2 = "2.00" := by
  have h : (⌊(2 : ℝ) * (((10 : ℤ) ^ 2 : ℤ) : ℝ) + 1 / 2⌋ : ℤ) = 200 := by
    rw [Int.floor_eq_iff]
    norm_num
  simp only [jsToFixed, h]
  rfl

lemma jsToFixed_two_zero : jsToFixed 2 0 = "0.00" := by
  have h : (⌊(0 : ℝ) * (((10 : ℤ) ^ 2 : ℤ) : ℝ) + 1 / 2⌋ : ℤ) = 0 := by
    rw [Int.floor_eq_iff]
    norm_num
  simp only [jsToFixed, h]
  rfl

lemma calculateMean_five_twos : calculateMean [2, 2, 2, 2, 2] = 2 := by
  norm_num [calculateMean, List.foldl]

lemma calculateStdDev_five_twos : calculateStdDev [2, 2, 2, 2, 2] 2 = 0 := by
  norm_num [calculateStdDev, calculateMean, List.foldl, Real.sqrt_zero]

lemma currentAggregateErrorRate_cur8 : currentAggregateErrorRate cur8 = 8 := by
  norm_num [currentAggregateErrorRate, cur8, List.foldl]

lemma errorRateSeverity_eight_zero : errorRateSeverity 8 0 = Severity.medium := by
  norm_num [errorRateSeverity]

/-- Evaluation of the error-rate detector on the spec's example: five
historical snapshots at 2%, current at 8%. -/
lemma detectErrorRate_example_eval :
    detectErrorRateAnomaly [h2, h2, h2, h2, h2] cur8 = some c4res := by
  have hr : histErrorRates [h2, h2, h2, h2, h2] = [2, 2, 2, 2, 2] := by
    norm_num [histErrorRates, summaryErrorRates, h2, List.flatMap, List.filterMap_cons]
  have hz : calculateZScore 8 2 0 = 0 := by norm_num [calculateZScore]
  unfold detectErrorRateAnomaly
  rw [hr]
  norm_num [calculateMean_five_twos, calculateStdDev_five_twos,
    currentAggregateErrorRate_cur8, hz, errorRateSeverity_eight_zero,
    jsToFixed_two_eight, jsToFixed_two_two, jsToFixed_two_zero, c4res]
  rfl

/-- The same evaluation with a three-snapshot history (what the detection
cycle passes when exactly four summaries are loaded). -/
lemma detectErrorRate_three_history_eval :
    detectErrorRateAnomaly [h2, h2, h2] cur8 = some c4res := by
  have hr : histErrorRates [h2, h2, h2] = [2, 2, 2] := by
    norm_num [histErrorRates, summaryErrorRates, h2, List.flatMap, List.filterMap_cons]
  have hm : calculateMean [2, 2, 2] = 2 := by
    norm_num [calculateMean, List.foldl]
  have hs : calculateStdDev [2, 2, 2] 2 = 0 := by
    norm_num [calculateStdDev, calculateMean, List.foldl, Real.sqrt_zero]
  have hz : calculateZScore 8 2 0 = 0 := by norm_num [calculateZScore]
  unfold detectErrorRateAnomaly
  rw [hr]
  norm_num [hm, hs, currentAggregateErrorRate_cur8, hz, errorRateSeverity_eight_zero,
    jsToFixed_two_eight, jsToFixed_two_two, jsToFixed_two_zero, c4res]
  rfl

/-- `detectAnomalies` on the three-snapshot history example. -/
lemma detectAnomalies_three_history_eval :
    detectAnomalies [h2, h2, h2] cur8 = some c4res := by
  simp [detectAnomalies, detectErrorRate_three_history_eval]

/-- C4.  The spec's end-to-end example: zero historical deviation is
treated as z-score 0, and the 8% current rate still triggers a medium
error-rate anomaly whose message formats the rate as "8.00%". -/
theorem error_rate_example_end_to_end :
    ∃ a, detectAnomalies [h2, h2, h2, h2, h2] cur8 = some a ∧
      a.zScore = 0 ∧ a.metric = "error_rate" ∧ a.currentValue = 8 ∧
      Severity.medium.rank ≤ a.severity.rank ∧
      ∃ pre post, a.message = pre ++ "8.00%" ++ post :=
  ⟨c4res, by simp [detectAnomalies, detectErrorRate_example_eval], rfl, rfl, rfl,
    by decide, "Error rate anomaly detected: ", " (expected: 2.00% ± 0.00%)", rfl⟩

/-- C7 (witness).  On the end-to-end example the error-rate detector fires,
and the ladder theorem yields a severity above 'low'. -/
theorem error_rate_severity_ladder_witness :
    detectErrorRateAnomaly [h2, h2, h2, h2, h2] cur8 = some c4res ∧
    c4res.severity ≠ Severity.low :=
  ⟨detectErrorRate_example_eval,
    (error_rate_severity_ladder [h2, h2, h2, h2, h2] cur8 c4res
      detectErrorRate_example_eval).1⟩

/-- An extreme current snapshot: 100% error rate, huge latency and volume. -/
noncomputable def extremeCur : Summary := ⟨0, [⟨100, 100, 5000⟩], 50000⟩

/-- C2 (witness).  With an empty history even the extreme snapshot yields
no anomaly. -/
theorem detect_insufficient_history_witness :
    ([] : List Summary).length < 3 ∧ detectAnomalies [] extremeCur = none :=
  ⟨by decide, detect_insufficient_history [] extremeCur (by decide)⟩

/-! ### A snapshot that breaches all three thresholds at once -/

/-- Historical snapshot: 2% error rate, 100 ms P95, volume 1. -/
noncomputable def hv1 : Summary := ⟨0, [⟨100, 2, 100⟩], 1⟩

/-- Historical snapshot: 2% error rate, 100 ms P95, volume 3. -/
noncomputable def hv3 : Summary := ⟨0, [⟨100, 2, 100⟩], 3⟩

/-- Current snapshot: 50% error rate, 2000 ms P95, volume 10 — breaching
the error-rate, latency and volume triggers simultaneously against the
history `[hv1, hv1, hv3, hv3]`. -/
noncomputable def curX : Summary := ⟨0, [⟨100, 50, 2000⟩], 10⟩

lemma detectErrorRate_breach_isSome :
    (detectErrorRateAnomaly [hv1, hv1, hv3, hv3] curX).isSome = true := by
  have hr : histErrorRates [hv1, hv1, hv3, hv3] = [2, 2, 2, 2] := by
    norm_num [histErrorRates, summaryErrorRates, hv1, hv3, List.flatMap, List.filterMap_cons]
  have hm : calculateMean [2, 2, 2, 2] = 2 := by
    norm_num [calculateMean, List.foldl]
  have hs : calculateStdDev [2, 2, 2, 2] 2 = 0 := by
    norm_num [calculateStdDev, calculateMean, List.foldl, Real.sqrt_zero]
  have hc : currentAggregateErrorRate curX = 50 := by
    norm_num [currentAggregateErrorRate, curX, List.foldl]
  have hz : calculateZScore 50 2 0 = 0 := by norm_num [calculateZScore]
  unfold detectErrorRateAnomaly
  rw [hr]
  norm_num [hm, hs, hc, hz]

lemma detectLatency_breach_isSome :
    (detectLatencyAnomaly [hv1, hv1, hv3, hv3] curX).isSome = true := by
  have hr : histLatencies [hv1, hv1, hv3, hv3] = [100, 100, 100, 100] := by
    norm_num [histLatencies, summaryLatencies, hv1, hv3, List.flatMap, List.filterMap_cons]
  have hm : calculateMean [100, 100, 100, 100] = 100 := by
    norm_num [calculateMean, List.foldl]
  have hs : calculateStdDev [100, 100, 100, 100] 100 = 0 := by
    norm_num [calculateStdDev, calculateMean, List.foldl, Real.sqrt_zero]
  have hc : currentMeanLatency curX = 2000 := by
    norm_num [currentMeanLatency, curX, List.filter, calculateMean, List.foldl]
  have hz : calculateZScore 2000 100 0 = 0 := by norm_num [calculateZScore]
  unfold detectLatencyAnomaly
  rw [hr]
  norm_num [hm, hs, hc, hz]

lemma detectVolume_breach_isSome :
    (detectVolumeAnomaly [hv1, hv1, hv3, hv3] curX).isSome = true := by
  have hr : histVolumes [hv1, hv1, hv3, hv3] = [1, 1, 3, 3] := by
    norm_num [histVolumes, hv1, hv3, List.filterMap_cons]
  have hm : calculateMean [1, 1, 3, 3] = 2 := by
    norm_num [calculateMean, List.foldl]
  have hs : calculateStdDev [1, 1, 3, 3] 2 = 1 := by
    norm_num [calculateStdDev, calculateMean, List.foldl, Real.sqrt_one]
  have hz : calculateZScore 10 2 1 = 8 := by norm_num [calculateZScore]
  unfold detectVolumeAnomaly
  rw [hr]
  norm_num [hm, hs, curX, hz]

/-- C3 (witness).  On the all-three-breaches snapshot, each detector fires
and `detect` returns the error-rate anomaly. -/
theorem detect_priority_error_rate_first_witness :
    (detectErrorRateAnomaly [hv1, hv1, hv3, hv3] curX).isSome = true ∧
    (detectLatencyAnomaly [hv1, hv1, hv3, hv3] curX).isSome = true ∧
    (detectVolumeAnomaly [hv1, hv1, hv3, hv3] curX).isSome = true ∧
    detectAnomalies [hv1, hv1, hv3, hv3] curX = detectErrorRateAnomaly [hv1, hv1, hv3, hv3] curX ∧
    Option.map (fun a => a.metric) (detectAnomalies [hv1, hv1, hv3, hv3] curX) = some "error_rate" :=
  ⟨detectErrorRate_breach_isSome, detectLatency_breach_isSome, detectVolume_breach_isSome,
    (detect_priority_error_rate_first [hv1, hv1, hv3, hv3] curX
      detectErrorRate_breach_isSome detectLatency_breach_isSome detectVolume_breach_isSome).1,
    (detect_priority_error_rate_first [hv1, hv1, hv3, hv3] curX
      detectErrorRate_breach_isSome detectLatency_breach_isSome detectVolume_breach_isSome).2⟩

/-! ### Detection cycle theorems -/

/-- A cycle input where an anomaly is found and not suppressed, but neither
text-generation provider is configured. -/
noncomputable def aiFailEnv : CycleEnv :=
  { summaries := [h2, h2, h2, cur8]
    now := 0
    cache := []
    logsFetch := .ok ()
    tracesFetch := .ok ()
    groqKey := ""
    openaiKey := ""
    groqApi := .error "unused"
    openaiApi := .error "unused"
    redisStoreOk := true
    dbSave := .ok ()
    notifyQueueUrl := ""
    sqsSend := .ok () }

/-- C1 (amended).  Whenever `analyzeAnomaly` throws (both providers
unconfigured or both calls failing), the cycle lands in its top-level
catch: no AnalysisRecord is stored anywhere and the cooldown cache is left
exactly as it was — the cooldown entry is NOT marked. -/
theorem ai_failure_aborts_without_marking_cooldown (M : ℚ) (env : CycleEnv) (e : String)
    (h : analyzeAnomaly env.groqKey env.openaiKey env.groqApi env.openaiApi env.now
      = .error e) :
    runAnomalyDetection M env = idleOutcome env.cache := by
  unfold runAnomalyDetection
  simp only []
  repeat' split
  all_goals simp_all


lemma runAnomalyDetection_aiFailEnv : runAnomalyDetection 1 aiFailEnv = idleOutcome [] := by
  unfold runAnomalyDetection
  simp only [aiFailEnv]
  norm_num [detectAnomalies_three_history_eval]
  exact fun _ => rfl

/-- C1 (counterexample).  A concrete cycle in which a fresh (non-suppressed)
medium error-rate anomaly is found but no provider is configured: the cycle
stores nothing AND leaves the cooldown cache without any entry for the
anomaly's key — contradicting "still marks the cooldown entry". -/
theorem ai_failure_cooldown_not_marked_example :
    detectAnomalies aiFailEnv.summaries.dropLast cur8 = some c4res ∧
    wasAnalyzedRecently 1 aiFailEnv.cache (getAnomalyKey "error_rate" "medium")
      aiFailEnv.now = false ∧
    runAnomalyDetection 1 aiFailEnv = idleOutcome [] ∧
    lookupTs (runAnomalyDetection 1 aiFailEnv).cache (getAnomalyKey "error_rate" "medium")
      = none := by
  refine ⟨?_, rfl, runAnomalyDetection_aiFailEnv, ?_⟩
  · show detectAnomalies [h2, h2, h2] cur8 = some c4res
    exact detectAnomalies_three_history_eval
  · rw [runAnomalyDetection_aiFailEnv]
    rfl

/-- C1 (witness for the amended theorem): the amended statement applied to
the concrete unconfigured-provider cycle. -/
theorem ai_failure_aborts_witness :
    analyzeAnomaly aiFailEnv.groqKey aiFailEnv.openaiKey aiFailEnv.groqApi
      aiFailEnv.openaiApi aiFailEnv.now
      = .error "No AI API keys configured (GROQ_API_KEY or OPENAI_API_KEY required)" ∧
    runAnomalyDetection 1 aiFailEnv = idleOutcome aiFailEnv.cache :=
  ⟨rfl, ai_failure_aborts_without_marking_cooldown 1 aiFailEnv
    "No AI API keys configured (GROQ_API_KEY or OPENAI_API_KEY required)" rfl⟩

/-! ### C10: the cycle's off-by-one history requirement -/

/-- A fully configured cycle input with exactly four loaded summaries. -/
noncomputable def dispatchEnv : CycleEnv :=
  { summaries := [h2, h2, h2, cur8]
    now := 0
    cache := []
    logsFetch := .ok ()
    tracesFetch := .ok ()
    groqKey := "gk"
    openaiKey := ""
    groqApi := .ok "root cause analysis text"
    openaiApi := .error "unused"
    redisStoreOk := true
    dbSave := .ok ()
    notifyQueueUrl := ""
    sqsSend := .ok () }

/-- C10.  The cycle hands the detector only the loaded summaries minus the
most recent one, so with exactly 3 loaded summaries the detector's own ≥ 3
precondition fails and the cycle can never dispatch; a dispatch is possible
with 4 loaded summaries. -/
theorem dispatch_requires_four_summaries :
    (∀ (M : ℚ) (env : CycleEnv), env.summaries.length = 3 →
      runAnomalyDetection M env = idleOutcome env.cache) ∧
    (dispatchEnv.summaries.length = 4 ∧
      (runAnomalyDetection 1 dispatchEnv).redisRecord.isSome = true) := by
  constructor
  · intro M env h3
    unfold runAnomalyDetection
    rw [if_neg (by omega)]
    cases hlast : env.summaries.getLast? with
    | none => rfl
    | some cur =>
      have hshort : env.summaries.dropLast.length < 3 := by
        rw [List.length_dropLast]
        omega
      simp only [detectAnomalies_of_short_history env.summaries.dropLast cur hshort]
  · refine ⟨rfl, ?_⟩
    unfold runAnomalyDetection
    simp only [dispatchEnv]
    norm_num [detectAnomalies_three_history_eval]
    rfl

/-- A cycle input with exactly three loaded summaries. -/
noncomputable def threeEnv : CycleEnv :=
  { dispatchEnv with summaries := [h2, h2, cur8] }

/-- C10 (witness): with exactly three loaded summaries the concrete cycle
dispatches nothing. -/
theorem dispatch_requires_four_summaries_witness :
    threeEnv.summaries.length = 3 ∧
    runAnomalyDetection 5 threeEnv = idleOutcome threeEnv.cache :=
  ⟨rfl, dispatch_requires_four_summaries.1 5 threeEnv rfl⟩

/-! ### Cooldown suppression lemmas (C5) -/

lemma mem_mapSet_self (cache : List (String × ℚ)) (key : String) (v : ℚ) :
    (key, v) ∈ mapSet cache key v := by
  unfold mapSet
  split
  · next hany =>
    obtain ⟨kv, hkv, hk⟩ := List.any_eq_true.mp hany
    refine List.mem_map.mpr ⟨kv, hkv, ?_⟩
    simp only [decide_eq_true_eq] at hk
    rw [if_pos hk]
  · exact List.mem_append_right _ (List.mem_singleton.mpr rfl)

lemma mapSet_uniform (cache : List (String × ℚ)) (key : String) (v : ℚ) :
    ∀ kv ∈ mapSet cache key v, kv.1 = key → kv = (key, v) := by
  unfold mapSet
  split
  · intro kv hkv hk1
    obtain ⟨kv0, _, hmap⟩ := List.mem_map.mp hkv
    by_cases h0 : kv0.1 = key
    · rw [if_pos h0] at hmap
      exact hmap.symm
    · rw [if_neg h0] at hmap
      subst hmap
      exact absurd hk1 h0
  · next hany =>
    intro kv hkv hk
    rcases List.mem_append.mp hkv with hmem | hmem
    · exact absurd (List.any_eq_true.mpr ⟨kv, hmem, decide_eq_true hk⟩) hany
    · exact List.mem_singleton.mp hmem

lemma lookupTs_filter_uniform (l : List (String × ℚ)) (key : String) (v : ℚ)
    (p : String × ℚ → Bool)
    (huni : ∀ kv ∈ l, kv.1 = key → kv = (key, v)) (hmem : (key, v) ∈ l)
    (hp : p (key, v) = true) : lookupTs (l.filter p) key = some v := by
  induction l with
  | nil => cases hmem
  | cons hd tl ih =>
    by_cases hk : hd.1 = key
    · have hhd : hd = (key, v) := huni hd (List.mem_cons_self hd tl) hk
      subst hhd
      rw [List.filter_cons, if_pos hp]
      simp [lookupTs, List.find?]
    · have hmem' : (key, v) ∈ tl := by
        rcases List.mem_cons.mp hmem with h | h
        · exact absurd (congrArg Prod.fst h.symm) hk
        · exact h
      have huni' : ∀ kv ∈ tl, kv.1 = key → kv = (key, v) :=
        fun kv hkv => huni kv (List.mem_cons_of_mem hd hkv)
      rw [List.filter_cons]
      split
      · simp only [lookupTs, List.find?]
        rw [decide_eq_false hk]
        exact ih huni' hmem'
      · exact ih huni' hmem'

lemma lookupTs_map_replace (l : List (String × ℚ)) (key : String) (v : ℚ)
    (k2 : String) (hne : k2 ≠ key) :
    lookupTs (l.map fun kv => if kv.1 = key then (key, v) else kv) k2 = lookupTs l k2 := by
  induction l with
  | nil => rfl
  | cons hd tl ih =>
    simp only [List.map_cons, lookupTs, List.find?]
    by_cases h0 : hd.1 = key
    · have e2 : decide (hd.1 = k2) = false :=
        decide_eq_false fun h => hne (h0.symm.trans h).symm
      simp only [h0, if_true, eq_self_iff_true]
      have e1 : decide (((key, v) : String × ℚ).1 = k2) = false :=
        decide_eq_false fun h => hne h.symm
      rw [e1]
      exact ih
    · simp only [h0, if_false]
      cases hdec : decide (hd.1 = k2)
      · exact ih
      · rfl

lemma lookupTs_append_single (l : List (String × ℚ)) (key : String) (v : ℚ)
    (k2 : String) (hne : k2 ≠ key) :
    lookupTs (l ++ [(key, v)]) k2 = lookupTs l k2 := by
  induction l with
  | nil =>
    simp only [List.nil_append, lookupTs, List.find?]
    rw [decide_eq_false fun h : ((key, v) : String × ℚ).1 = k2 => hne h.symm]
  | cons hd tl ih =>
    simp only [List.cons_append, lookupTs, List.find?]
    cases hdec : decide (hd.1 = k2)
    · exact ih
    · rfl

lemma lookupTs_mapSet_other (cache : List (String × ℚ)) (key : String) (v : ℚ)
    (k2 : String) (hne : k2 ≠ key) :
    lookupTs (mapSet cache key v) k2 = lookupTs cache k2 := by
  unfold mapSet
  split
  · exact lookupTs_map_replace cache key v k2 hne
  · exact lookupTs_append_single cache key v k2 hne

lemma keys_mapSet_nodup (cache : List (String × ℚ)) (key : String) (v : ℚ)
    (h : (cache.map Prod.fst).Nodup) : ((mapSet cache key v).map Prod.fst).Nodup := by
  unfold mapSet
  split
  · have hkeys : (cache.map fun kv => if kv.1 = key then ((key, v) : String × ℚ) else kv).map
        Prod.fst = cache.map Prod.fst := by
      rw [List.map_map]
      refine List.map_congr_left fun kv _ => ?_
      by_cases h0 : kv.1 = key
      · simp [h0]
      · simp [h0]
    rw [hkeys]
    exact h
  · next hany =>
    have hnot : key ∉ cache.map Prod.fst := by
      intro hmem
      obtain ⟨kv, hkv, hfst⟩ := List.mem_map.mp hmem
      exact hany (List.any_eq_true.mpr ⟨kv, hkv, decide_eq_true hfst⟩)
    rw [List.map_append]
    simp only [List.map_cons, List.map_nil]
    exact List.Nodup.append h (List.nodup_singleton key)
      (List.disjoint_singleton.mpr hnot)

lemma lookupTs_filter_none (l : List (String × ℚ)) (key : String)
    (p : String × ℚ → Bool) (h : lookupTs l key = none) :
    lookupTs (l.filter p) key = none := by
  unfold lookupTs at h ⊢
  rw [Option.map_eq_none'] at h ⊢
  rw [List.find?_eq_none] at h ⊢
  exact fun x hx => h x (List.mem_of_mem_filter hx)

lemma lookupTs_filter_of_nodup (l : List (String × ℚ)) (key : String) (ts : ℚ)
    (p : String × ℚ → Bool) (hnd : (l.map Prod.fst).Nodup)
    (h : lookupTs l key = some ts) :
    lookupTs (l.filter p) key = if p (key, ts) = true then some ts else none := by
  induction l with
  | nil => simp [lookupTs] at h
  | cons hd tl ih =>
    have hnd' : (tl.map Prod.fst).Nodup := (List.nodup_cons.mp hnd).2
    by_cases hk : hd.1 = key
    · have hts : hd.2 = ts := by
        simp only [lookupTs, List.find?, decide_eq_true hk] at h
        exact Option.some.inj h
      have hhd : hd = (key, ts) := Prod.ext hk hts
      subst hhd
      have hnotin : key ∉ tl.map Prod.fst := by
        have := (List.nodup_cons.mp hnd).1
        simpa using this
      have htl : lookupTs tl key = none := by
        unfold lookupTs
        rw [Option.map_eq_none', List.find?_eq_none]
        intro x hx
        simp only [decide_eq_true_eq]
        intro hfst
        exact hnotin (List.mem_map.mpr ⟨x, hx, hfst⟩)
      rw [List.filter_cons]
      split
      · simp [lookupTs, List.find?]
      · exact lookupTs_filter_none tl key p htl
    · have h' : lookupTs tl key = some ts := by
        simp only [lookupTs, List.find?, decide_eq_false hk] at h
        exact h
      rw [List.filter_cons]
      split
      · simp only [lookupTs, List.find?, decide_eq_false hk]
        exact ih hnd' h'
      · exact ih hnd' h'

lemma getAnomalyKey_inj (m s s2 : String) (h : getAnomalyKey m s = getAnomalyKey m s2) :
    s = s2 := by
  unfold getAnomalyKey at h
  have hd : (m ++ ":" ++ s).data = (m ++ ":" ++ s2).data := congrArg String.data h
  simp only [String.data_append] at hd
  have h2 := List.append_cancel_left hd
  exact String.ext h2

/-- C5 (counterexample).  JS truthiness: `markDispatched` at clock time 0
stores the falsy timestamp 0, which `if (!lastAnalyzed) return false`
treats as never analyzed — so the same key is NOT suppressed 30 s later,
although 30 s is inside the 1-minute cooldown window. -/
theorem cooldown_mark_at_time_zero_never_suppresses :
    lookupTs (markAsAnalyzed 1 [] (getAnomalyKey "error_rate" "high") 0)
      (getAnomalyKey "error_rate" "high") = some 0 ∧
    (30000 : ℚ) - 0 < 1 * 60 * 1000 ∧
    wasAnalyzedRecently 1 (markAsAnalyzed 1 [] (getAnomalyKey "error_rate" "high") 0)
      (getAnomalyKey "error_rate" "high") 30000 = false := by
  have hmark : markAsAnalyzed 1 [] (getAnomalyKey "error_rate" "high") 0
      = [(getAnomalyKey "error_rate" "high", 0)] := by
    norm_num [markAsAnalyzed, mapSet, List.filter]
  have hlook : lookupTs (markAsAnalyzed 1 [] (getAnomalyKey "error_rate" "high") 0)
      (getAnomalyKey "error_rate" "high") = some 0 := by
    rw [hmark]
    simp [lookupTs, List.find?]
  refine ⟨hlook, by norm_num, ?_⟩
  unfold wasAnalyzedRecently
  rw [hlook]
  simp

/-- C5 (amended).  For any mark time other than the falsy clock value 0:
suppression is keyed on the exact (metric, severity) pair and on entry age
only — after marking at time `t ≠ 0`, the same key is suppressed at `t2`
exactly while `t2 - t` is below the cooldown window, and any other
severity for the same metric is entirely unaffected by the mark. -/
theorem cooldown_keyed_by_metric_and_severity
    (cache : List (String × ℚ)) (m s s2 : String) (t t2 M : ℚ)
    (hnd : (cache.map Prod.fst).Nodup) (hM : 0 ≤ M) (ht : t ≤ t2) (ht0 : t ≠ 0)
    (hs : s2 ≠ s) :
    (wasAnalyzedRecently M (markAsAnalyzed M cache (getAnomalyKey m s) t)
        (getAnomalyKey m s) t2 = true ↔ t2 - t < M * 60 * 1000) ∧
    wasAnalyzedRecently M (markAsAnalyzed M cache (getAnomalyKey m s) t)
        (getAnomalyKey m s2) t2
      = wasAnalyzedRecently M cache (getAnomalyKey m s2) t2 := by
  have hkne : getAnomalyKey m s2 ≠ getAnomalyKey m s :=
    fun h => hs (getAnomalyKey_inj m s2 s h)
  constructor
  · have hlook : lookupTs (markAsAnalyzed M cache (getAnomalyKey m s) t)
        (getAnomalyKey m s) = some t := by
      simp only [markAsAnalyzed]
      refine lookupTs_filter_uniform _ _ t _
        (mapSet_uniform cache (getAnomalyKey m s) t)
        (mem_mapSet_self cache (getAnomalyKey m s) t) ?_
      refine decide_eq_true ?_
      rw [sub_self]
      exact not_lt.mpr (mul_nonneg (mul_nonneg hM (by norm_num)) (by norm_num))
    unfold wasAnalyzedRecently
    rw [hlook]
    simp only [ht0, if_false, decide_eq_true_eq]
    rw [div_lt_iff₀ (by norm_num : (0 : ℚ) < 1000 * 60)]
    constructor <;> intro h <;> linarith
  · unfold wasAnalyzedRecently
    simp only [markAsAnalyzed]
    cases h2 : lookupTs cache (getAnomalyKey m s2) with
    | none =>
      have hnone : lookupTs (mapSet cache (getAnomalyKey m s) t) (getAnomalyKey m s2)
          = none := by
        rw [lookupTs_mapSet_other cache (getAnomalyKey m s) t (getAnomalyKey m s2) hkne]
        exact h2
      rw [lookupTs_filter_none _ _ _ hnone]
    | some ts =>
      have hsome : lookupTs (mapSet cache (getAnomalyKey m s) t) (getAnomalyKey m s2)
          = some ts := by
        rw [lookupTs_mapSet_other cache (getAnomalyKey m s) t (getAnomalyKey m s2) hkne]
        exact h2
      rw [lookupTs_filter_of_nodup (mapSet cache (getAnomalyKey m s) t)
        (getAnomalyKey m s2) ts _ (keys_mapSet_nodup cache (getAnomalyKey m s) t hnd) hsome]
      dsimp only
      by_cases hp : t - ts > M * 60 * 1000
      · have hpfalse : decide (¬ (t - ts > M * 60 * 1000)) = false :=
          decide_eq_false (not_not_intro hp)
        rw [hpfalse]
        simp only [Bool.false_eq_true, if_false]
        by_cases hts : ts = 0
        · rw [if_pos hts]
        · have hnot2 : ¬ ((t2 - ts) / (1000 * 60) < M) := by
            rw [not_lt, le_div_iff₀ (by norm_num : (0 : ℚ) < 1000 * 60)]
            linarith
          rw [if_neg hts, decide_eq_false hnot2]
      · have hptrue : decide (¬ (t - ts > M * 60 * 1000)) = true := decide_eq_true hp
        rw [hptrue]
        simp

/-- C5 (witness).  Marking `error_rate:high` at time 5 ms with a 1-minute
cooldown suppresses the same key at 30 s and leaves `error_rate:medium`
untouched. -/
theorem cooldown_keyed_by_metric_and_severity_witness :
    (([] : List (String × ℚ)).map Prod.fst).Nodup ∧ (0 : ℚ) ≤ 1 ∧ (5 : ℚ) ≤ 30000 ∧
    (5 : ℚ) ≠ 0 ∧ ("medium" : String) ≠ "high" ∧
    ((wasAnalyzedRecently 1 (markAsAnalyzed 1 [] (getAnomalyKey "error_rate" "high") 5)
        (getAnomalyKey "error_rate" "high") 30000 = true ↔
        (30000 : ℚ) - 5 < 1 * 60 * 1000) ∧
      wasAnalyzedRecently 1 (markAsAnalyzed 1 [] (getAnomalyKey "error_rate" "high") 5)
          (getAnomalyKey "error_rate" "medium") 30000
        = wasAnalyzedRecently 1 [] (getAnomalyKey "error_rate" "medium") 30000) :=
  ⟨List.nodup_nil, by norm_num, by norm_num, by norm_num, by decide,
    cooldown_keyed_by_metric_and_severity [] "error_rate" "high" "medium" 5 30000 1
      List.nodup_nil (by norm_num) (by norm_num) (by norm_num) (by decide)⟩

/-! ### Snapshot store read lemmas (C9) -/

/-- The value `getRecentSummaries` falls back to when key enumeration
yields nothing: `getLatest()`'s result as a 0/1-element list. -/
def latestFallback (kv : String → Option (Option Summary)) : List Summary :=
  match kv "aggregated:latest" with
  | some (some s) => [s]
  | _ => []

lemma dedupByTimestamp_nodup (seen : List Nat) (l : List Summary) :
    ((dedupByTimestamp seen l).map Summary.timestamp).Nodup ∧
    ∀ x ∈ (dedupByTimestamp seen l).map Summary.timestamp, x ∉ seen := by
  induction l generalizing seen with
  | nil => exact ⟨List.nodup_nil, by simp [dedupByTimestamp]⟩
  | cons s rest ih =>
    unfold dedupByTimestamp
    split
    · exact ih seen
    · next hnotin =>
      obtain ⟨hnd, hseen⟩ := ih (s.timestamp :: seen)
      refine ⟨?_, ?_⟩
      · simp only [List.map_cons, List.nodup_cons]
        exact ⟨fun hmem => (hseen _ hmem) (List.mem_cons_self _ _), hnd⟩
      · intro x hx
        rcases List.mem_cons.mp hx with hx | hx
        · subst hx
          exact hnotin
        · exact fun hxseen => (hseen x hx) (List.mem_cons_of_mem _ hxseen)

lemma length_jsSliceNeg (l : List α) (count : Nat) (h : 1 ≤ count) :
    (jsSliceNeg l count).length ≤ count := by
  unfold jsSliceNeg
  rw [if_neg (by omega)]
  rw [List.length_drop]
  omega

lemma pairwise_slice_sort_dedup (l : List Summary) (count : Nat) :
    List.Pairwise (fun a b : Summary => a.timestamp < b.timestamp)
      (jsSliceNeg (List.insertionSort (fun a b : Summary => a.timestamp ≤ b.timestamp)
        (dedupByTimestamp [] l)) count) := by
  haveI h1 : IsTotal Summary (fun a b : Summary => a.timestamp ≤ b.timestamp) :=
    ⟨fun a b => Nat.le_total a.timestamp b.timestamp⟩
  haveI h2 : IsTrans Summary (fun a b : Summary => a.timestamp ≤ b.timestamp) :=
    ⟨fun _ _ _ hab hbc => le_trans hab hbc⟩
  have hsorted : List.Sorted (fun a b : Summary => a.timestamp ≤ b.timestamp)
      (List.insertionSort (fun a b : Summary => a.timestamp ≤ b.timestamp)
        (dedupByTimestamp [] l)) :=
    List.sorted_insertionSort _ _
  have hperm : List.Perm (List.insertionSort (fun a b : Summary => a.timestamp ≤ b.timestamp)
      (dedupByTimestamp [] l)) (dedupByTimestamp [] l) :=
    List.perm_insertionSort _ _
  have hnodup : (List.map Summary.timestamp
      (List.insertionSort (fun a b : Summary => a.timestamp ≤ b.timestamp)
        (dedupByTimestamp [] l))).Nodup :=
    ((hperm.map Summary.timestamp).nodup_iff).mpr (dedupByTimestamp_nodup [] l).1
  have hne : List.Pairwise (fun a b : Summary => a.timestamp ≠ b.timestamp)
      (List.insertionSort (fun a b : Summary => a.timestamp ≤ b.timestamp)
        (dedupByTimestamp [] l)) :=
    List.pairwise_map.mp hnodup
  have hlt := (hsorted.and hne).imp
    fun hab => lt_of_le_of_ne hab.1 hab.2
  unfold jsSliceNeg
  split
  · exact hlt
  · exact hlt.sublist (List.drop_sublist _ _)

/-- C9 (amended).  For every `n ≥ 1`, `getRecentSummaries` returns a
chronologically strictly increasing (hence timestamp-deduplicated) list of
at most `n` summaries, and when key enumeration fails entirely (SCAN fails
and the `keys()` fallback is unavailable or also fails) it degrades to the
latest snapshot alone. -/
theorem get_recent_summaries_spec (scanOutcome : Except String (List String))
    (keysAvailable : Bool) (keysOutcome : Except String (List String))
    (kv : String → Option (Option Summary)) (n : Nat) (hn : 1 ≤ n) :
    List.Pairwise (fun a b : Summary => a.timestamp < b.timestamp)
      (getRecentSummaries scanOutcome keysAvailable keysOutcome kv n) ∧
    (getRecentSummaries scanOutcome keysAvailable keysOutcome kv n).length ≤ n ∧
    (exceptIsError scanOutcome = true → keysAvailable = false →
      getRecentSummaries scanOutcome keysAvailable keysOutcome kv n = latestFallback kv) ∧
    (exceptIsError scanOutcome = true → exceptIsError keysOutcome = true →
      getRecentSummaries scanOutcome keysAvailable keysOutcome kv n = latestFallback kv) := by
  have hn0 : n ≠ 0 := by omega
  have h1n : 1 - n = 0 := by omega
  refine ⟨pairwise_slice_sort_dedup _ n, length_jsSliceNeg _ n hn, ?_, ?_⟩
  · intro hscan hka
    cases scanOutcome with
    | ok v => simp [exceptIsError] at hscan
    | error e =>
      subst hka
      rcases hkv : kv "aggregated:latest" with _ | v
      · simp [getRecentSummaries, latestFallback, hkv, dedupByTimestamp, jsSliceNeg]
      · rcases v with _ | s
        · simp [getRecentSummaries, latestFallback, hkv, dedupByTimestamp, jsSliceNeg]
        · simp [getRecentSummaries, latestFallback, hkv, dedupByTimestamp, jsSliceNeg,
            hn0, h1n]
  · intro hscan hkeys
    cases scanOutcome with
    | ok v => simp [exceptIsError] at hscan
    | error e =>
      cases keysOutcome with
      | ok v => simp [exceptIsError] at hkeys
      | error e2 =>
        cases keysAvailable <;>
        · rcases hkv : kv "aggregated:latest" with _ | v
          · simp [getRecentSummaries, latestFallback, hkv, dedupByTimestamp, jsSliceNeg]
          · rcases v with _ | s
            · simp [getRecentSummaries, latestFallback, hkv, dedupByTimestamp, jsSliceNeg]
            · simp [getRecentSummaries, latestFallback, hkv, dedupByTimestamp, jsSliceNeg,
                hn0, h1n]

/-- A key-value view holding only the `aggregated:latest` sentinel. -/
noncomputable def latestOnlyKv : String → Option (Option Summary) :=
  fun k => if k = "aggregated:latest" then some (some h2) else none

/-- C9 (counterexample).  `getRecent(0)`: JS `slice(-0)` is `slice(0)`, so
with a latest snapshot present the result has length 1 > 0 — "at most n"
fails at n = 0. -/
theorem get_recent_summaries_zero_count_example :
    getRecentSummaries (.ok []) true (.ok []) latestOnlyKv 0 = [h2] ∧
    ¬ ((getRecentSummaries (.ok []) true (.ok []) latestOnlyKv 0).length ≤ 0) := by
  have h : getRecentSummaries (.ok []) true (.ok []) latestOnlyKv 0 = [h2] := by
    simp [getRecentSummaries, latestOnlyKv, dedupByTimestamp, jsSliceNeg]
  refine ⟨h, ?_⟩
  rw [h]
  decide

/-- C9 (witness).  The amended specification applied to a store whose
enumeration fails both ways, with `n = 1`. -/
theorem get_recent_summaries_spec_witness :
    1 ≤ 1 ∧
    (List.Pairwise (fun a b : Summary => a.timestamp < b.timestamp)
        (getRecentSummaries (.error "scan failed") false (.error "keys failed")
          latestOnlyKv 1) ∧
      (getRecentSummaries (.error "scan failed") false (.error "keys failed")
          latestOnlyKv 1).length ≤ 1 ∧
      (exceptIsError (.error "scan failed" : Except String (List String)) = true →
        false = false →
        getRecentSummaries (.error "scan failed") false (.error "keys failed")
          latestOnlyKv 1 = latestFallback latestOnlyKv) ∧
      (exceptIsError (.error "scan failed" : Except String (List String)) = true →
        exceptIsError (.error "keys failed" : Except String (List String)) = true →
        getRecentSummaries (.error "scan failed") false (.error "keys failed")
          latestOnlyKv 1 = latestFallback latestOnlyKv)) :=
  ⟨le_refl 1, get_recent_summaries_spec (.error "scan failed") false (.error "keys failed")
    latestOnlyKv 1 (le_refl 1)⟩
